import Mathlib

/-!
Shallow embedding of `fight2.py`, a small interactive utility that scores two
submitted code snippets with pylint, compares the scores, and persists a
leaderboard as a JSON file.

Modelling conventions:
* Scores are exact rationals (`Rat`).  The program only parses plain decimal
  literals from pylint's output and compares / stores them, so rational
  arithmetic models the Python float behaviour faithfully on all values that
  actually arise.
* The external pylint subprocess is an oracle: each invocation is given a
  `LinterResult`, either captured standard output (`ok`) or a raised
  exception (`exn`).  The temporary-file path chosen by the OS is likewise a
  parameter.
* Streamlit UI calls and filesystem effects are recorded as an explicit
  event list; the set of existing temporary files is a boolean membership
  function.
-/

namespace Fight2

/-- Python `str.split(sep)` with a one-character separator, keeping empty
pieces, over an explicit character list. -/
def splitOnChar (sep : Char) : List Char → List Char → List (List Char)
  | [], acc => [acc.reverse]
  | c :: rest, acc =>
    if c = sep then acc.reverse :: splitOnChar sep rest []
    else splitOnChar sep rest (c :: acc)

/-- Characters stripped by Python `str.strip()` (ASCII whitespace; exotic
Unicode whitespace is not modelled). -/
def pyIsSpace (c : Char) : Bool :=
  c = ' ' || c = '\t' || c = '\n' || c = '\r' || c = '\x0b' || c = '\x0c'

/-- Python `str.strip()` on a character list. -/
def pyStrip (l : List Char) : List Char :=
  ((l.dropWhile pyIsSpace).reverse.dropWhile pyIsSpace).reverse

/-- Truthiness of `code.strip()` in the source: the code text is a submission
iff it is non-empty after trimming. -/
def submitted (code : String) : Bool :=
  !(pyStrip code.data).isEmpty

/-- Value of a non-empty list of decimal digits. -/
def natOfDigits (l : List Char) : Nat :=
  l.foldl (fun n c => 10 * n + (c.toNat - 48)) 0

/-- Python `float()` restricted to plain decimal literals (optional sign,
digits, optional single decimal point): `none` models a raised `ValueError`.
Exponent / `inf` / `nan` forms, which pylint never prints in a rating line,
are not modelled and also map to `none`. -/
def parseUnsigned (s : List Char) : Option Rat :=
  let intPart := s.takeWhile Char.isDigit
  let rest := s.dropWhile Char.isDigit
  match rest with
  | [] => if intPart.isEmpty then none else some (natOfDigits intPart : Rat)
  | '.' :: frac =>
    if frac.all Char.isDigit && (!intPart.isEmpty || !frac.isEmpty) then
      some ((natOfDigits intPart : Rat) + (natOfDigits frac : Rat) / (10 ^ frac.length))
    else none
  | _ => none

/-- Signed variant of `parseUnsigned`, models `float(score_str)`. -/
def parseFloat (s : List Char) : Option Rat :=
  match s with
  | '-' :: rest => (parseUnsigned rest).map (fun q => -q)
  | '+' :: rest => parseUnsigned rest
  | l => parseUnsigned l

/-- The fixed phrase announcing pylint's rating line
(`"Your code has been rated at"`). -/
def ratedMarker : List Char := "Your code has been rated at".data

/-- Body of the parsing attempt for a rating line:
`float(line.split(" ")[6].split('/')[0])`; `none` models the exception paths
(`IndexError` on a short line, `ValueError` on a non-numeric token). -/
def parseScoreLine (line : List Char) : Option Rat :=
  match (splitOnChar ' ' line []).get? 6 with
  | none => none
  | some tok =>
    match splitOnChar '/' tok [] with
    | [] => none
    | t :: _ => parseFloat t

/-- Result of scanning the captured standard output inside the `try` block. -/
inductive ScanResult where
  | parsed (s : Rat)
  | noMatch
  | parseError
deriving DecidableEq

/-- The `for line in result.stdout.split('\n')` loop: the first line starting
with the rating marker is parsed and returned; a parse failure raises (the
loop does not continue); no matching line falls through to `return 0.0`. -/
def scanStdout (stdout : String) : ScanResult :=
  match (splitOnChar '\n' stdout.data []).find? (fun l => ratedMarker.isPrefixOf l) with
  | none => .noMatch
  | some line =>
    match parseScoreLine line with
    | some s => .parsed s
    | none => .parseError

/-- Outcome of one pylint invocation, as seen by the caller: either the
captured standard output of the completed subprocess, or an exception raised
during the invocation (e.g. pylint not installed). -/
inductive LinterResult where
  | ok (stdout : String)
  | exn (msg : String)
deriving DecidableEq

/-- The set of existing temporary files, as a membership function. -/
def FS := String → Bool

/-- Creating (writing) a file. -/
def createFile (fs : FS) (p : String) : FS :=
  fun q => if q = p then true else fs q

/-- `os.remove`. -/
def removeFile (fs : FS) (p : String) : FS :=
  fun q => if q = p then false else fs q

/-- A name→score mapping, in Python dict insertion order. -/
def Rankings := List (String × Rat)
deriving DecidableEq

/-- Python dict lookup `rankings[name]`. -/
def lookupRank : Rankings → String → Option Rat
  | [], _ => none
  | (k, v) :: rest, d => if k = d then some v else lookupRank rest d

/-- Python dict assignment `rankings[developer] = score`: replaces the value
in place when the key exists, appends otherwise. -/
def dictSet : Rankings → String → Rat → Rankings
  | [], d, s => [(d, s)]
  | (k, v) :: rest, d, s =>
    if k = d then (d, s) :: rest else (k, v) :: dictSet rest d s

/-- `update_rankings(rankings, developer, score)` from the source: stores the
new score under the developer's name and returns the mapping. -/
def update_rankings (rankings : Rankings) (developer : String) (score : Rat) : Rankings :=
  dictSet rankings developer score

/-- One observable effect: a Streamlit UI call, a temp-file operation, a
subprocess launch, or a write of the ranking file, in program order. -/
inductive Event where
  | createTemp (path : String)
  | runLinter (path : String)
  | errorBanner
  | warnNoCode
  | showScore (dev : String) (score : Rat)
  | showNotSubmitted (dev : String)
  | showWinner (dev : String)
  | showAutoWin (dev : String)
  | showTie
  | saveFile (r : Rankings)
deriving DecidableEq

/-- Result of one call to the score extractor: the returned score, the
effects in order, and the temp-file state after the call. -/
structure ScoreResult where
  score : Rat
  events : List Event
  fs : FS

/-- `get_pylint_score(code)` from the source: writes the code to a fresh
temporary file, runs pylint capturing stdout, scans for the rating line and
returns its parsed numerator; returns `0.0` when no line matches; catches
any exception, shows an error banner and returns `0.0`; always removes the
temporary file in the `finally` block.  The pylint subprocess is the oracle
`res`; the OS-chosen unique path is `tempPath`. -/
def get_pylint_score (code : String) (tempPath : String) (res : LinterResult) (fs : FS) :
    ScoreResult :=
  let fs1 := createFile fs tempPath
  match res with
  | .exn _ =>
    { score := 0
      events := [.createTemp tempPath, .runLinter tempPath, .errorBanner]
      fs := removeFile fs1 tempPath }
  | .ok stdout =>
    match scanStdout stdout with
    | .parsed s =>
      { score := s
        events := [.createTemp tempPath, .runLinter tempPath]
        fs := removeFile fs1 tempPath }
    | .noMatch =>
      { score := 0
        events := [.createTemp tempPath, .runLinter tempPath]
        fs := removeFile fs1 tempPath }
    | .parseError =>
      { score := 0
        events := [.createTemp tempPath, .runLinter tempPath, .errorBanner]
        fs := removeFile fs1 tempPath }

/-- The score `get_pylint_score` returns, as a function of the oracle alone
(the score does not depend on the code text, path, or filesystem state). -/
def pylintScoreOf (res : LinterResult) : Rat :=
  match res with
  | .exn _ => 0
  | .ok stdout =>
    match scanStdout stdout with
    | .parsed s => s
    | .noMatch => 0
    | .parseError => 0

/-- The successfully parsed rating, when the oracle provides one. -/
def resultParsed (res : LinterResult) : Option Rat :=
  match res with
  | .exn _ => none
  | .ok stdout =>
    match scanStdout stdout with
    | .parsed s => some s
    | .noMatch => none
    | .parseError => none

theorem get_pylint_score_score (code tempPath : String) (res : LinterResult) (fs : FS) :
    (get_pylint_score code tempPath res fs).score = pylintScoreOf res := by
  cases res with
  | exn m => rfl
  | ok out =>
    simp only [get_pylint_score, pylintScoreOf]
    cases scanStdout out <;> rfl

/-! ## Ranking store

`load_rankings` / `save_rankings` exchange the mapping with the ranking file
through the Python `json` library.  The file contents are modelled at the
JSON-value level (`ensure_ascii=False` and the indentation affect only the
byte encoding, which round-trips below this level). -/

/-- A JSON value, to the depth the ranking file can hold. -/
inductive JsonValue where
  | num (q : Rat)
  | str (s : String)
  | obj (fields : List (String × JsonValue))

/-- Reading a JSON object's fields back as a name→score mapping; `none`
models a fatal failure (a non-numeric value, which the program never
handles). -/
def fieldsToRankings : List (String × JsonValue) → Option Rankings
  | [] => some []
  | (k, .num q) :: rest => (fieldsToRankings rest).map (fun r => (k, q) :: r)
  | _ => none

/-- `json.load` of the ranking file, typed as the program uses it; `none`
models a fatal parse/shape failure (spec: "malformed ranking JSON →
unhandled, propagates as a fatal parse failure"). -/
def jsonToRankings : JsonValue → Option Rankings
  | .obj fields => fieldsToRankings fields
  | _ => none

/-- `json.dump` of the mapping. -/
def rankingsToJson (r : Rankings) : JsonValue :=
  .obj (r.map (fun p => (p.1, .num p.2)))

/-- `load_rankings()` from the source: if the ranking file exists, parse it;
otherwise return the empty mapping.  `none` is a fatal parse failure. -/
def load_rankings (file : Option JsonValue) : Option Rankings :=
  match file with
  | some j => jsonToRankings j
  | none => some []

/-- `save_rankings(rankings)` from the source: overwrite the ranking file
with the serialized mapping. -/
def save_rankings (rankings : Rankings) (file : Option JsonValue) : Option JsonValue :=
  some (rankingsToJson rankings)

/-! ## Battle orchestrator

The body of the `if st.button(...)` branch of `main` (lines 106–157). -/

/-- The winner message rendered by the branch chain at lines 134–144.
`silent` is the implicit fourth case, in which none of the branches fires
and no outcome message is rendered. -/
inductive Outcome where
  | winA
  | winB
  | tie
  | autoA
  | autoB
  | aborted
  | silent
deriving DecidableEq

/-- Result of one battle: final in-memory mapping, the two optional scores,
the outcome message, all effects in order, the ranking-file write (`none`
when `save_rankings` was never called), and the temp-file state. -/
structure BattleResult where
  rankings : Rankings
  scoreA : Option Rat
  scoreB : Option Rat
  outcome : Outcome
  events : List Event
  saved : Option Rankings
  fs : FS

/-- The battle branch of `main`: warn and return early when both code texts
are blank; otherwise score each submitted side (updating the mapping),
determine the winner, save the rankings, and render.  The two pylint
invocations are the oracles `resA`, `resB` with OS-chosen paths `tempA`,
`tempB`; `rankings0` is the mapping loaded at session start and `fs0` the
initial temp-file state. -/
def mainBattle (devA devB codeA codeB tempA tempB : String)
    (resA resB : LinterResult) (rankings0 : Rankings) (fs0 : FS) : BattleResult :=
  if !(submitted codeA) && !(submitted codeB) then
    { rankings := rankings0, scoreA := none, scoreB := none, outcome := .aborted
      events := [.warnNoCode], saved := none, fs := fs0 }
  else
    let stepA : Option Rat × List Event × Rankings × FS :=
      if submitted codeA then
        let g := get_pylint_score codeA tempA resA fs0
        (some g.score, g.events ++ [.showScore devA g.score],
          update_rankings rankings0 devA g.score, g.fs)
      else
        (none, [.showNotSubmitted devA], rankings0, fs0)
    let stepB : Option Rat × List Event × Rankings × FS :=
      if submitted codeB then
        let g := get_pylint_score codeB tempB resB stepA.2.2.2
        (some g.score, g.events ++ [.showScore devB g.score],
          update_rankings stepA.2.2.1 devB g.score, g.fs)
      else
        (none, [.showNotSubmitted devB], stepA.2.2.1, stepA.2.2.2)
    let winner : Outcome × List Event :=
      match stepA.1, stepB.1 with
      | some a, some b =>
        if a > b then (.winA, [.showWinner devA])
        else if b > a then (.winB, [.showWinner devB])
        else (.tie, [.showTie])
      | some _, none => (.autoA, [.showAutoWin devA])
      | none, some _ => (.autoB, [.showAutoWin devB])
      | none, none => (.silent, [])
    { rankings := stepB.2.2.1
      scoreA := stepA.1
      scoreB := stepB.1
      outcome := winner.1
      events := stepA.2.1 ++ stepB.2.1 ++ winner.2 ++ [.saveFile stepB.2.2.1]
      saved := some stepB.2.2.1
      fs := stepB.2.2.2 }

/-! ## Helper lemmas -/

theorem lookup_dictSet (r : Rankings) (d : String) (s : Rat) (n : String) :
    lookupRank (dictSet r d s) n = if n = d then some s else lookupRank r n := by
  induction r with
  | nil =>
    simp only [dictSet, lookupRank]
    exact if_congr eq_comm rfl rfl
  | cons p rest ih =>
    obtain ⟨k, v⟩ := p
    simp only [dictSet]
    by_cases hk : k = d
    · rw [if_pos hk]
      simp only [lookupRank]
      by_cases hd : n = d
      · rw [if_pos hd.symm, if_pos hd]
      · rw [if_neg (fun h => hd h.symm), if_neg hd,
          if_neg (fun hn => hd (hn.symm.trans hk))]
    · rw [if_neg hk]
      simp only [lookupRank]
      by_cases hn : k = n
      · rw [if_pos hn, if_neg (fun hd => hk (hn.trans hd)), if_pos hn]
      · rw [if_neg hn, ih, if_neg hn]

/-- The winner branch chain of lines 134–144, as a pure function of the two
submission flags and the two extracted scores. -/
def pureOutcome (subA subB : Bool) (a b : Rat) : Outcome :=
  if !subA && !subB then .aborted
  else if subA && subB then
    (if a > b then .winA else if b > a then .winB else .tie)
  else if subA then .autoA
  else .autoB

theorem mainBattle_outcome (devA devB codeA codeB tempA tempB : String)
    (resA resB : LinterResult) (rankings0 : Rankings) (fs0 : FS) :
    (mainBattle devA devB codeA codeB tempA tempB resA resB rankings0 fs0).outcome =
      pureOutcome (submitted codeA) (submitted codeB)
        (pylintScoreOf resA) (pylintScoreOf resB) := by
  unfold mainBattle pureOutcome
  cases hA : submitted codeA <;> cases hB : submitted codeB <;>
    simp [hA, hB, get_pylint_score_score] <;> split_ifs <;> rfl

theorem fieldsToRankings_map (r : Rankings) :
    fieldsToRankings (r.map (fun p => (p.1, JsonValue.num p.2))) = some r := by
  induction r with
  | nil => rfl
  | cons p rest ih =>
    obtain ⟨k, v⟩ := p
    simp only [List.map, fieldsToRankings, ih, Option.map]

/-- The empty temp-file state. -/
def fsEmpty : FS := fun _ => false

end Fight2

namespace Fight2

/-- C1 counterexample: the extractor does not clamp what it parses.  When
the linter prints a rating line with a negative numerator (pylint's rating
formula does go negative), `get_pylint_score` returns that negative value,
outside [0.0, 10.0]. -/
theorem c1_counterexample :
    ¬ (0 ≤ (get_pylint_score "print(1)" "/tmp/tmpc1.py"
            (.ok "Your code has been rated at -5/10") fsEmpty).score ∧
        (get_pylint_score "print(1)" "/tmp/tmpc1.py"
            (.ok "Your code has been rated at -5/10") fsEmpty).score ≤ 10) := by
  decide

/-- C1 (amended): for every code input, the extractor returns a value in
[0.0, 10.0] provided that, whenever the linter's output contains a parsable
rating line, its parsed numerator lies in [0.0, 10.0]; on the no-match and
exception paths the result is exactly 0.0.  (The source performs no
clamping, so the bound is conditional on what the linter prints.) -/
theorem c1_amended_bound (code tempPath : String) (res : LinterResult) (fs : FS)
    (h : ∀ s, resultParsed res = some s → 0 ≤ s ∧ s ≤ 10) :
    0 ≤ (get_pylint_score code tempPath res fs).score ∧
      (get_pylint_score code tempPath res fs).score ≤ 10 := by
  rw [get_pylint_score_score]
  cases res with
  | exn m => exact ⟨le_refl 0, by norm_num [pylintScoreOf]⟩
  | ok out =>
    cases hs : scanStdout out with
    | parsed s =>
      have : pylintScoreOf (.ok out) = s := by simp [pylintScoreOf, hs]
      rw [this]
      exact h s (by simp [resultParsed, hs])
    | noMatch =>
      have : pylintScoreOf (.ok out) = 0 := by simp [pylintScoreOf, hs]
      rw [this]
      exact ⟨le_refl 0, by norm_num⟩
    | parseError =>
      have : pylintScoreOf (.ok out) = 0 := by simp [pylintScoreOf, hs]
      rw [this]
      exact ⟨le_refl 0, by norm_num⟩

theorem c1_amended_bound_witness :
    0 ≤ (get_pylint_score "x = 1" "/tmp/tmpw1.py"
          (.ok "Your code has been rated at 9/10") fsEmpty).score ∧
      (get_pylint_score "x = 1" "/tmp/tmpw1.py"
          (.ok "Your code has been rated at 9/10") fsEmpty).score ≤ 10 := by
  apply c1_amended_bound
  intro s hs
  have he : resultParsed (.ok "Your code has been rated at 9/10") = some 9 := by decide
  rw [he] at hs
  injection hs with h9
  rw [← h9]
  constructor <;> decide

/-- C2 counterexample: the stored entry is not the maximum of the old and
new scores.  A battle in which developer "A" (previous best 9) submits code
rated 2 leaves "A" mapped to 2, not to 9. -/
theorem c2_counterexample :
    ¬ (lookupRank (mainBattle "A" "B" "x = 1" "" "/tmp/tmpa2.py" "/tmp/tmpb2.py"
          (.ok "Your code has been rated at 2/10") (.ok "") [("A", 9)] fsEmpty).rankings "A" =
        some 9) := by
  decide

/-- C2 (amended): after a battle in which a developer submits code, the
stored entry for that name is the newly extracted score, overwriting any
previously stored score (last-write-wins), not the maximum of the two. -/
theorem c2_amended_overwrite (rankings : Rankings) (developer : String) (score : Rat) :
    lookupRank (update_rankings rankings developer score) developer = some score := by
  rw [update_rankings, lookup_dictSet, if_pos rfl]

/-- C5: ranking round-trip — saving any name→score mapping and loading it
back yields exactly the saved mapping (for any prior file contents). -/
theorem c5_roundtrip (r : Rankings) (file : Option JsonValue) :
    load_rankings (save_rankings r file) = some r := by
  simp only [save_rankings, load_rankings, jsonToRankings, rankingsToJson]
  exact fieldsToRankings_map r

/-- C7: on every path through the score extractor — successful parse,
no matching line, and exception — the temporary file has been removed by
the time the call returns. -/
theorem c7_tempfile_removed (code tempPath : String) (res : LinterResult) (fs : FS) :
    (get_pylint_score code tempPath res fs).fs tempPath = false := by
  cases res with
  | exn m => simp [get_pylint_score, removeFile]
  | ok out =>
    simp only [get_pylint_score]
    cases scanStdout out <;> simp [removeFile]

/-- C3: winner determination — when both sides submit, the strictly higher
extracted score wins and equal scores tie; when exactly one side submits,
that side auto-wins; when neither submits, the only effect is the warning
banner (so the user is warned before any scoring) and the battle aborts. -/
theorem c3_winner_determination (devA devB codeA codeB tempA tempB : String)
    (resA resB : LinterResult) (rankings0 : Rankings) (fs0 : FS)
    (b : BattleResult)
    (hb : b = mainBattle devA devB codeA codeB tempA tempB resA resB rankings0 fs0) :
    (submitted codeA = true → submitted codeB = true →
      pylintScoreOf resA > pylintScoreOf resB → b.outcome = .winA) ∧
    (submitted codeA = true → submitted codeB = true →
      pylintScoreOf resB > pylintScoreOf resA → b.outcome = .winB) ∧
    (submitted codeA = true → submitted codeB = true →
      pylintScoreOf resA = pylintScoreOf resB → b.outcome = .tie) ∧
    (submitted codeA = true → submitted codeB = false → b.outcome = .autoA) ∧
    (submitted codeA = false → submitted codeB = true → b.outcome = .autoB) ∧
    (submitted codeA = false → submitted codeB = false →
      b.outcome = .aborted ∧ b.events = [.warnNoCode]) := by
  subst hb
  refine ⟨?_, ?_, ?_, ?_, ?_, ?_⟩
  · intro hA hB hgt
    rw [mainBattle_outcome]
    simp [pureOutcome, hA, hB, hgt]
  · intro hA hB hgt
    rw [mainBattle_outcome]
    simp [pureOutcome, hA, hB, hgt, lt_asymm hgt]
  · intro hA hB heq
    rw [mainBattle_outcome]
    simp [pureOutcome, hA, hB, heq, lt_irrefl]
  · intro hA hB
    rw [mainBattle_outcome]
    simp [pureOutcome, hA, hB]
  · intro hA hB
    rw [mainBattle_outcome]
    simp [pureOutcome, hA, hB]
  · intro hA hB
    simp [mainBattle, hA, hB]

theorem c3_winner_determination_witness :
    (mainBattle "A" "B" "x = 1" "y = 2" "/tmp/tmpa3.py" "/tmp/tmpb3.py"
        (.ok "Your code has been rated at 9/10") (.ok "Your code has been rated at 3/10")
        [] fsEmpty).outcome = .winA ∧
    (mainBattle "A" "B" "" " " "/tmp/tmpa3.py" "/tmp/tmpb3.py"
        (.ok "") (.ok "") [] fsEmpty).outcome = .aborted := by
  constructor
  · exact (c3_winner_determination "A" "B" "x = 1" "y = 2" "/tmp/tmpa3.py" "/tmp/tmpb3.py"
      (.ok "Your code has been rated at 9/10") (.ok "Your code has been rated at 3/10")
      [] fsEmpty _ rfl).1 (by decide) (by decide) (by decide)
  · exact ((c3_winner_determination "A" "B" "" " " "/tmp/tmpa3.py" "/tmp/tmpb3.py"
      (.ok "") (.ok "") [] fsEmpty _ rfl).2.2.2.2.2 (by decide) (by decide)).1

/-- C4: when both code texts are blank after trimming, the battle's only
effect is the warning banner — no temp file is created, no linter is run,
the in-memory mapping is unchanged, the ranking file is not written, and
the temp-file state is untouched. -/
theorem c4_both_empty_frame (devA devB codeA codeB tempA tempB : String)
    (resA resB : LinterResult) (rankings0 : Rankings) (fs0 : FS)
    (b : BattleResult)
    (hb : b = mainBattle devA devB codeA codeB tempA tempB resA resB rankings0 fs0)
    (hA : submitted codeA = false) (hB : submitted codeB = false) :
    b.events = [.warnNoCode] ∧ b.rankings = rankings0 ∧ b.saved = none ∧ b.fs = fs0 := by
  subst hb
  simp [mainBattle, hA, hB]

theorem c4_both_empty_frame_witness :
    (mainBattle "A" "B" "" "  \n " "/tmp/tmpa4.py" "/tmp/tmpb4.py"
        (.ok "") (.ok "") [("A", 9)] fsEmpty).events = [.warnNoCode] ∧
      (mainBattle "A" "B" "" "  \n " "/tmp/tmpa4.py" "/tmp/tmpb4.py"
        (.ok "") (.ok "") [("A", 9)] fsEmpty).rankings = [("A", 9)] ∧
      (mainBattle "A" "B" "" "  \n " "/tmp/tmpa4.py" "/tmp/tmpb4.py"
        (.ok "") (.ok "") [("A", 9)] fsEmpty).saved = none ∧
      (mainBattle "A" "B" "" "  \n " "/tmp/tmpa4.py" "/tmp/tmpb4.py"
        (.ok "") (.ok "") [("A", 9)] fsEmpty).fs = fsEmpty :=
  c4_both_empty_frame "A" "B" "" "  \n " "/tmp/tmpa4.py" "/tmp/tmpb4.py"
    (.ok "") (.ok "") [("A", 9)] fsEmpty _ rfl (by decide) (by decide)

/-- C6: the extractor returns 0.0 whenever no line of the captured output
starts with the rating marker; an exception raised by the invocation is
caught, an error banner is shown, and 0.0 is returned; an exception raised
while parsing the rating line likewise yields a banner and 0.0.  (The
function is total: no exception propagates to the caller.) -/
theorem c6_error_handling (code tempPath : String) (res : LinterResult) (fs : FS) :
    (∀ stdout, res = .ok stdout → scanStdout stdout = .noMatch →
      (get_pylint_score code tempPath res fs).score = 0) ∧
    (∀ msg, res = .exn msg →
      (get_pylint_score code tempPath res fs).score = 0 ∧
        Event.errorBanner ∈ (get_pylint_score code tempPath res fs).events) ∧
    (∀ stdout, res = .ok stdout → scanStdout stdout = .parseError →
      (get_pylint_score code tempPath res fs).score = 0 ∧
        Event.errorBanner ∈ (get_pylint_score code tempPath res fs).events) := by
  refine ⟨?_, ?_, ?_⟩
  · intro out hres hscan
    subst hres
    simp [get_pylint_score, hscan]
  · intro m hres
    subst hres
    refine ⟨rfl, ?_⟩
    simp [get_pylint_score]
  · intro out hres hscan
    subst hres
    refine ⟨?_, ?_⟩ <;> simp [get_pylint_score, hscan]

theorem c6_error_handling_witness :
    (get_pylint_score "x = 1" "/tmp/tmp61.py" (.ok "************* Module tmp") fsEmpty).score
        = 0 ∧
    ((get_pylint_score "x = 1" "/tmp/tmp62.py" (.exn "FileNotFoundError") fsEmpty).score = 0 ∧
      Event.errorBanner ∈
        (get_pylint_score "x = 1" "/tmp/tmp62.py" (.exn "FileNotFoundError") fsEmpty).events) ∧
    ((get_pylint_score "x = 1" "/tmp/tmp63.py" (.ok "Your code has been rated at") fsEmpty).score
        = 0 ∧
      Event.errorBanner ∈
        (get_pylint_score "x = 1" "/tmp/tmp63.py"
          (.ok "Your code has been rated at") fsEmpty).events) := by
  refine ⟨?_, ?_, ?_⟩
  · exact (c6_error_handling "x = 1" "/tmp/tmp61.py" (.ok "************* Module tmp")
      fsEmpty).1 "************* Module tmp" rfl (by decide)
  · exact (c6_error_handling "x = 1" "/tmp/tmp62.py" (.exn "FileNotFoundError")
      fsEmpty).2.1 "FileNotFoundError" rfl
  · exact (c6_error_handling "x = 1" "/tmp/tmp63.py" (.ok "Your code has been rated at")
      fsEmpty).2.2 "Your code has been rated at" rfl (by decide)

/-- The renaming of reported outcomes induced by swapping the two sides. -/
def swapOutcome : Outcome → Outcome
  | .winA => .winB
  | .winB => .winA
  | .autoA => .autoB
  | .autoB => .autoA
  | .tie => .tie
  | .aborted => .aborted
  | .silent => .silent

theorem pureOutcome_swap (sa sb : Bool) (a b : Rat) :
    pureOutcome sb sa b a = swapOutcome (pureOutcome sa sb a b) := by
  cases sa <;> cases sb <;> simp only [pureOutcome, swapOutcome] <;> simp
  rcases lt_trichotomy a b with h | h | h
  · simp [h, lt_asymm h, swapOutcome]
  · simp [h, lt_irrefl, swapOutcome]
  · simp [h, lt_asymm h, swapOutcome]

/-- C8: winner determination is order-independent — swapping the two
developers' names, code texts, temp paths and linter results swaps the
reported outcome (winner↔winner, auto-win↔auto-win) while ties and the
both-empty warning behaviour are unchanged. -/
theorem c8_swap (devA devB codeA codeB tempA tempB : String)
    (resA resB : LinterResult) (rankings0 : Rankings) (fs0 : FS) :
    ((mainBattle devB devA codeB codeA tempB tempA resB resA rankings0 fs0).outcome =
      swapOutcome
        (mainBattle devA devB codeA codeB tempA tempB resA resB rankings0 fs0).outcome) ∧
    (submitted codeA = false → submitted codeB = false →
      (mainBattle devB devA codeB codeA tempB tempA resB resA rankings0 fs0).events =
        (mainBattle devA devB codeA codeB tempA tempB resA resB rankings0 fs0).events) := by
  constructor
  · rw [mainBattle_outcome, mainBattle_outcome]
    exact pureOutcome_swap (submitted codeA) (submitted codeB)
      (pylintScoreOf resA) (pylintScoreOf resB)
  · intro hA hB
    simp [mainBattle, hA, hB]

theorem c8_swap_witness :
    ((mainBattle "B" "A" "" "x = 1" "/tmp/tmpb8.py" "/tmp/tmpa8.py"
        (.ok "") (.ok "Your code has been rated at 5/10") [] fsEmpty).outcome =
      swapOutcome
        (mainBattle "A" "B" "x = 1" "" "/tmp/tmpa8.py" "/tmp/tmpb8.py"
          (.ok "Your code has been rated at 5/10") (.ok "") [] fsEmpty).outcome) ∧
    ((mainBattle "B" "A" " " "" "/tmp/tmpb8.py" "/tmp/tmpa8.py"
        (.ok "") (.ok "") [] fsEmpty).events =
      (mainBattle "A" "B" "" " " "/tmp/tmpa8.py" "/tmp/tmpb8.py"
        (.ok "") (.ok "") [] fsEmpty).events) :=
  ⟨(c8_swap "A" "B" "x = 1" "" "/tmp/tmpa8.py" "/tmp/tmpb8.py"
      (.ok "Your code has been rated at 5/10") (.ok "") [] fsEmpty).1,
    (c8_swap "A" "B" "" " " "/tmp/tmpa8.py" "/tmp/tmpb8.py"
      (.ok "") (.ok "") [] fsEmpty).2 (by decide) (by decide)⟩

/-- C9: when exactly side A submits, A auto-wins, A's ranking entry becomes
the extracted score, every entry under a different name (in particular any
entry for the non-submitting developer B when `devB ≠ devA`) is unchanged,
and the resulting mapping is exactly what is written to the ranking file. -/
theorem c9_single_submit (devA devB codeA codeB tempA tempB : String)
    (resA resB : LinterResult) (rankings0 : Rankings) (fs0 : FS)
    (b : BattleResult)
    (hb : b = mainBattle devA devB codeA codeB tempA tempB resA resB rankings0 fs0)
    (hA : submitted codeA = true) (hB : submitted codeB = false) :
    b.outcome = .autoA ∧
    lookupRank b.rankings devA = some (pylintScoreOf resA) ∧
    (∀ n, n ≠ devA → lookupRank b.rankings n = lookupRank rankings0 n) ∧
    b.saved = some b.rankings := by
  subst hb
  have hrank :
      (mainBattle devA devB codeA codeB tempA tempB resA resB rankings0 fs0).rankings =
        update_rankings rankings0 devA (pylintScoreOf resA) := by
    simp [mainBattle, hA, hB, get_pylint_score_score]
  refine ⟨?_, ?_, ?_, ?_⟩
  · rw [mainBattle_outcome]
    simp [pureOutcome, hA, hB]
  · rw [hrank, update_rankings, lookup_dictSet, if_pos rfl]
  · intro n hn
    rw [hrank, update_rankings, lookup_dictSet, if_neg hn]
  · simp [mainBattle, hA, hB]

theorem c9_single_submit_witness :
    (mainBattle "A" "B" "x = 1" "" "/tmp/tmpa9.py" "/tmp/tmpb9.py"
        (.ok "Your code has been rated at 5/10") (.ok "") [("B", 7)] fsEmpty).outcome
      = .autoA ∧
    lookupRank (mainBattle "A" "B" "x = 1" "" "/tmp/tmpa9.py" "/tmp/tmpb9.py"
        (.ok "Your code has been rated at 5/10") (.ok "") [("B", 7)] fsEmpty).rankings "A"
      = some 5 ∧
    lookupRank (mainBattle "A" "B" "x = 1" "" "/tmp/tmpa9.py" "/tmp/tmpb9.py"
        (.ok "Your code has been rated at 5/10") (.ok "") [("B", 7)] fsEmpty).rankings "B"
      = some 7 ∧
    (mainBattle "A" "B" "x = 1" "" "/tmp/tmpa9.py" "/tmp/tmpb9.py"
        (.ok "Your code has been rated at 5/10") (.ok "") [("B", 7)] fsEmpty).saved
      = some (mainBattle "A" "B" "x = 1" "" "/tmp/tmpa9.py" "/tmp/tmpb9.py"
        (.ok "Your code has been rated at 5/10") (.ok "") [("B", 7)] fsEmpty).rankings := by
  have h := c9_single_submit "A" "B" "x = 1" "" "/tmp/tmpa9.py" "/tmp/tmpb9.py"
    (.ok "Your code has been rated at 5/10") (.ok "") [("B", 7)] fsEmpty _ rfl
    (by decide) (by decide)
  refine ⟨h.1, ?_, ?_, h.2.2.2⟩
  · rw [h.2.1]
    decide
  · rw [h.2.2.1 "B" (by decide)]
    decide

/-- C10: the implicit fourth case of the winner branch chain is dead code —
no battle ever reaches the winner-determination step with both scores
undefined, so an outcome message is always rendered unless the both-empty
guard aborted first. -/
theorem c10_no_silent (devA devB codeA codeB tempA tempB : String)
    (resA resB : LinterResult) (rankings0 : Rankings) (fs0 : FS) :
    (mainBattle devA devB codeA codeB tempA tempB resA resB rankings0 fs0).outcome
        ≠ .silent ∧
    ((mainBattle devA devB codeA codeB tempA tempB resA resB rankings0 fs0).outcome
        ≠ .aborted →
      (mainBattle devA devB codeA codeB tempA tempB resA resB rankings0 fs0).scoreA ≠ none ∨
        (mainBattle devA devB codeA codeB tempA tempB resA resB rankings0 fs0).scoreB
          ≠ none) := by
  cases hA : submitted codeA <;> cases hB : submitted codeB <;>
    constructor <;> simp [mainBattle, hA, hB] <;> split_ifs <;> simp

theorem c10_no_silent_witness :
    (mainBattle "A" "B" "x = 1" "" "/tmp/tmpa10.py" "/tmp/tmpb10.py"
        (.ok "Your code has been rated at 5/10") (.ok "") [] fsEmpty).scoreA ≠ none ∨
      (mainBattle "A" "B" "x = 1" "" "/tmp/tmpa10.py" "/tmp/tmpb10.py"
        (.ok "Your code has been rated at 5/10") (.ok "") [] fsEmpty).scoreB ≠ none :=
  (c10_no_silent "A" "B" "x = 1" "" "/tmp/tmpa10.py" "/tmp/tmpb10.py"
    (.ok "Your code has been rated at 5/10") (.ok "") [] fsEmpty).2 (by decide)

end Fight2
